import Mathlib

/-!
# Verification of the gp-net Gaussian-Process fitting and active-learning engine

Shallow embedding of the core logic of `src/optimizers/adam.py` (the three fit
modes `adam.train_test_split`, `adam.k_fold`, `adam.active`) and of the
active-learning driver loops in `src/gp-net.py` (`main`).

Modelling conventions:
* Real-valued numerics are modelled over `ℚ` (the claims under study are about
  control flow, trace selection and bookkeeping, not floating-point rounding).
* External library calls are abstracted as parameters:
  - `tfd.GaussianProcessRegressionModel(...)` together with its
    `.mean() / .stddev() / .variance()` accessors is an uninterpreted function
    `GPLib.post` from (amplitude, length-scale, feature_ndims, index_points,
    observation_index_points, observations) to a `Posterior`;
  - `scipy.stats.pearsonr` and `np.std` are the uninterpreted `GPLib.pearson`
    and `GPLib.stdAbsErr`;
  - the `tf.optimizers.Adam` update steps are abstracted as the per-iteration
    sequences of recorded hyperparameter / loss values (`AdamOracle`): the
    recorded value of `amp._value()` after the update of iteration `i` is
    `AdamOracle.ampVal i`, and likewise for the length scale and the loss.
  Theorems quantify over these parameters, so they hold in particular for the
  actual numeric functions the Python code calls.
* Latent point sets (`tsne_*` arrays reshaped into `latent_*` tensors) are an
  opaque type `α`; the trailing feature dimensionality `np.shape(tsne)[1]` is
  passed alongside as `ndims` (the `np.newaxis` reshapes at the top of each fit
  function only change the tensor shape, never the data, so they are not
  observable on an opaque point type — only the bound/unbound status of the
  `latent_*` local variables is modelled, see `dimOk`).
* `tf.losses.MAE` / `tf.losses.MSE` are the usual mean absolute / squared
  errors, written out concretely (`maeQ`, `mseQ`).
-/

set_option autoImplicit false

namespace GpNet

/-- The triple returned by the accessors of a fitted
`tfd.GaussianProcessRegressionModel`: `.mean()`, `.stddev()`, `.variance()`
as vectors over the query (index) points. -/
structure Posterior where
  mean : List ℚ
  stddev : List ℚ
  variance : List ℚ
deriving DecidableEq, Repr

/-- Abstraction of the external tensorflow-probability / scipy / numpy calls
used by `adam.py`.  `post amp lscale ndims indexPts obsPts obs` stands for
`tfd.GaussianProcessRegressionModel(kernel=tfk.ExponentiatedQuadratic(amp,
lscale, feature_ndims=ndims), index_points=indexPts,
observation_index_points=obsPts, observations=obs)`;
`pearson y yhat` stands for `scipy.stats.pearsonr(x=y, y=yhat)[0]`; and
`stdAbsErr y yhat` stands for `np.std(np.abs(yhat - y))`. -/
structure GPLib (α : Type) where
  post : ℚ → ℚ → ℕ → α → α → List ℚ → Posterior
  pearson : List ℚ → List ℚ → ℚ
  stdAbsErr : List ℚ → List ℚ → ℚ

/-- Abstraction of the `tf.optimizers.Adam` optimisation steps inside a single
fit call: `ampVal i` / `lenVal i` are the values `amp._value().numpy()` /
`length_scale._value().numpy()` recorded right after `apply_gradients` at loop
iteration `i`, and `loss i` is the loss value recorded at iteration `i`. -/
structure AdamOracle where
  loss : ℕ → ℚ
  ampVal : ℕ → ℚ
  lenVal : ℕ → ℚ

/-- `tf.losses.MAE(y, yhat)`: mean absolute error. -/
def maeQ (y yhat : List ℚ) : ℚ :=
  (((y.zip yhat).map fun p => |p.1 - p.2|).sum) / (y.length : ℚ)

/-- `tf.losses.MSE(y, yhat)`: mean squared error. -/
def mseQ (y yhat : List ℚ) : ℚ :=
  (((y.zip yhat).map fun p => (p.1 - p.2) ^ 2).sum) / (y.length : ℚ)

/-- `min(l)` on a nonempty list of rationals (`0` on the empty list,
 which never occurs in the modelled code paths). -/
def minimumQ : List ℚ → ℚ
  | [] => 0
  | [x] => x
  | x :: y :: t => min x (minimumQ (y :: t))

/-- `np.argmin(l)`: index of the first occurrence of the minimum. -/
def argminQ : List ℚ → ℕ
  | [] => 0
  | [_] => 0
  | x :: y :: t => if x ≤ minimumQ (y :: t) then 0 else argminQ (y :: t) + 1

/-- The per-iteration trace `OptAmp` of recorded amplitudes over
`maxiters` iterations. -/
def optAmpList (o : AdamOracle) (n : ℕ) : List ℚ :=
  (List.range n).map o.ampVal

/-- The per-iteration trace `OptLength` of recorded length scales. -/
def optLenList (o : AdamOracle) (n : ℕ) : List ℚ :=
  (List.range n).map o.lenVal

/-- The per-iteration trace `OptLoss` of recorded losses. -/
def optLossList (o : AdamOracle) (n : ℕ) : List ℚ :=
  (List.range n).map o.loss

/-- The per-iteration validation-MAE trace (`Optmae` in `train_test_split`,
`Optmae_val` in `k_fold` / `active`): at iteration `i` the GP regression model
is rebuilt with the just-recorded hyperparameters, conditioned on the training
partition, evaluated at the validation index points, and
`tf.losses.MAE(yval, gprm.mean())` is appended. -/
def optMaeList {α : Type} (lib : GPLib α) (o : AdamOracle) (ndims : ℕ)
    (latTrain latVal : α) (ytrain yval : List ℚ) (n : ℕ) : List ℚ :=
  (List.range n).map fun i =>
    maeQ yval ((lib.post (o.ampVal i) (o.lenVal i) ndims latVal latTrain ytrain).mean)

/-- The per-iteration validation-MSE trace (`Optmse` / `Optmse_val`). -/
def optMseList {α : Type} (lib : GPLib α) (o : AdamOracle) (ndims : ℕ)
    (latTrain latVal : α) (ytrain yval : List ℚ) (n : ℕ) : List ℚ :=
  (List.range n).map fun i =>
    mseQ yval ((lib.post (o.ampVal i) (o.lenVal i) ndims latVal latTrain ytrain).mean)

/-- The per-iteration trace `Optsae` / `Optsae_val` of
`np.std(np.abs(gprm.mean() - yval))`. -/
def optSaeList {α : Type} (lib : GPLib α) (o : AdamOracle) (ndims : ℕ)
    (latTrain latVal : α) (ytrain yval : List ℚ) (n : ℕ) : List ℚ :=
  (List.range n).map fun i =>
    lib.stdAbsErr yval ((lib.post (o.ampVal i) (o.lenVal i) ndims latVal latTrain ytrain).mean)

/-- The 9-tuple returned by `adam.train_test_split`.  When `maxiters <= 0` the
second and third slots hold the unchanged scalar priors (`Sum.inl`); when
`maxiters > 0` they hold the whole per-iteration arrays (`Sum.inr`). -/
structure TTSResult where
  optLoss : Option (List ℚ)
  optAmp : ℚ ⊕ List ℚ
  optLength : ℚ ⊕ List ℚ
  mae : ℚ
  mse : ℚ
  sae : ℚ
  gpMean : List ℚ
  gpStddev : List ℚ
  r : ℚ
deriving DecidableEq

/-- The 13-tuple returned by `adam.active`. -/
structure ActiveResult where
  optLoss : Option (List ℚ)
  optAmp : Option (List ℚ)
  optLength : Option (List ℚ)
  bestAmp : ℚ
  bestLength : ℚ
  gpMean : List ℚ
  gpStddev : List ℚ
  gpVariance : List ℚ
  bestMae : Option ℚ
  maeTest : ℚ
  mseTest : ℚ
  saeTest : ℚ
  r : ℚ
deriving DecidableEq

/-- The 5-tuple returned by `adam.k_fold`. -/
structure KFoldResult where
  amp : ℚ
  lengthScale : ℚ
  optMaeVal : Option ℚ
  optMseVal : Option ℚ
  maeTest : ℚ
deriving DecidableEq

/-- Body of `adam.train_test_split` after the latent reshape (`src/optimizers/adam.py`
lines 72-187).  In this mode the pool is the training partition and the test
partition doubles as validation: the loop's `gprm_dft` is rebuilt each
iteration at `latent_test` with the just-recorded hyperparameters, and the
value left over from the final iteration (`i = maxiters - 1`) is what the
post-loop code reads its mean/stddev from. -/
def ttsFitCore {α : Type} (lib : GPLib α) (o : AdamOracle) (ndims : ℕ)
    (latPool latTest : α) (ypool ytest : List ℚ)
    (maxiters : ℤ) (amp lengthScale _rate : ℚ) : TTSResult :=
  if maxiters ≤ 0 then
    let gprm := lib.post amp lengthScale ndims latTest latPool ypool
    { optLoss := none
      optAmp := Sum.inl amp
      optLength := Sum.inl lengthScale
      mae := maeQ ytest gprm.mean
      mse := mseQ ytest gprm.mean
      sae := lib.stdAbsErr ytest gprm.mean
      gpMean := gprm.mean
      gpStddev := gprm.stddev
      r := lib.pearson ytest gprm.mean }
  else
    let n := maxiters.toNat
    let amps := optAmpList o n
    let lens := optLenList o n
    let maes := optMaeList lib o ndims latPool latTest ypool ytest n
    let mses := optMseList lib o ndims latPool latTest ypool ytest n
    let saes := optSaeList lib o ndims latPool latTest ypool ytest n
    let j := argminQ maes
    -- the surviving gprm_dft is the one of the LAST loop iteration
    let gprmLast := lib.post (amps.getD (n - 1) 0) (lens.getD (n - 1) 0) ndims latTest latPool ypool
    { optLoss := some (optLossList o n)
      optAmp := Sum.inr amps
      optLength := Sum.inr lens
      mae := minimumQ maes
      mse := mses.getD j 0
      sae := saes.getD j 0
      gpMean := gprmLast.mean
      gpStddev := gprmLast.stddev
      r := lib.pearson ytest gprmLast.mean }

/-- Body of `adam.active` after the latent reshape (`src/optimizers/adam.py`
lines 412-545).  With `maxiters > 0` the final `gprm_dft` is rebuilt after the
loop with `OptAmp[np.argmin(Optmae_val)]` / `OptLength[np.argmin(Optmae_val)]`
at the test index points. -/
def activeFitCore {α : Type} (lib : GPLib α) (o : AdamOracle) (ndims : ℕ)
    (latTrain latVal latTest : α) (ytrain yval ytest : List ℚ)
    (maxiters : ℤ) (amp lengthScale _rate : ℚ) : ActiveResult :=
  if maxiters ≤ 0 then
    let gprm := lib.post amp lengthScale ndims latTest latTrain ytrain
    { optLoss := none
      optAmp := none
      optLength := none
      bestAmp := amp
      bestLength := lengthScale
      gpMean := gprm.mean
      gpStddev := gprm.stddev
      gpVariance := gprm.variance
      bestMae := none
      maeTest := maeQ ytest gprm.mean
      mseTest := mseQ ytest gprm.mean
      saeTest := lib.stdAbsErr ytest gprm.mean
      r := lib.pearson ytest gprm.mean }
  else
    let n := maxiters.toNat
    let amps := optAmpList o n
    let lens := optLenList o n
    let maes := optMaeList lib o ndims latTrain latVal ytrain yval n
    let j := argminQ maes
    let gprm := lib.post (amps.getD j 0) (lens.getD j 0) ndims latTest latTrain ytrain
    { optLoss := some (optLossList o n)
      optAmp := some amps
      optLength := some lens
      bestAmp := amps.getD j 0
      bestLength := lens.getD j 0
      gpMean := gprm.mean
      gpStddev := gprm.stddev
      gpVariance := gprm.variance
      bestMae := some (minimumQ maes)
      maeTest := maeQ ytest gprm.mean
      mseTest := mseQ ytest gprm.mean
      saeTest := lib.stdAbsErr ytest gprm.mean
      r := lib.pearson ytest gprm.mean }

/-- Body of `adam.k_fold` after the latent reshape (`src/optimizers/adam.py`
lines 236-352).  With `maxiters > 0` the final `gprm_dft` is rebuilt after the
loop with the argmin hyperparameters at the test index points, and `mae_test`
is computed from it. -/
def kFoldCore {α : Type} (lib : GPLib α) (o : AdamOracle) (ndims : ℕ)
    (latTrain latVal latTest : α) (ytrain yval ytest : List ℚ)
    (maxiters : ℤ) (amp lengthScale _rate : ℚ) : KFoldResult :=
  if maxiters ≤ 0 then
    let gprm := lib.post amp lengthScale ndims latTest latTrain ytrain
    { amp := amp
      lengthScale := lengthScale
      optMaeVal := none
      optMseVal := none
      maeTest := maeQ ytest gprm.mean }
  else
    let n := maxiters.toNat
    let amps := optAmpList o n
    let lens := optLenList o n
    let maes := optMaeList lib o ndims latTrain latVal ytrain yval n
    let mses := optMseList lib o ndims latTrain latVal ytrain yval n
    let j := argminQ maes
    let gprm := lib.post (amps.getD j 0) (lens.getD j 0) ndims latTest latTrain ytrain
    { amp := amps.getD j 0
      lengthScale := lens.getD j 0
      optMaeVal := some (minimumQ maes)
      optMseVal := some (mses.getD j 0)
      maeTest := maeQ ytest gprm.mean }

/-- The runtime failure raised when a Python local is read before assignment
(what actually happens in `adam.py` when the latent reshape falls through both
`if np.shape(...)[1] == 2` and `elif ... == 3` branches and `latent_pool` /
`latent_train` is later used unbound). -/
inductive PyError where
  | unboundLocal
deriving DecidableEq, Repr

/-- The latent reshape at the top of each fit function binds the `latent_*`
locals only when the trailing dimensionality is 2 or 3 (`src/optimizers/adam.py`
lines 59-66, 222-229, 398-405: an `if == 2` / `elif == 3` chain with no other
branch). -/
def dimOk (ndims : ℕ) : Bool :=
  ndims == 2 || ndims == 3

/-- `adam.train_test_split` including the latent reshape: when the trailing
dimensionality is neither 2 nor 3 the `latent_*` locals stay unbound and their
first use raises `UnboundLocalError`. -/
def ttsFit {α : Type} (lib : GPLib α) (o : AdamOracle) (ndims : ℕ)
    (latPool latTest : α) (ypool ytest : List ℚ)
    (maxiters : ℤ) (amp lengthScale rate : ℚ) : Except PyError TTSResult :=
  if dimOk ndims then
    Except.ok (ttsFitCore lib o ndims latPool latTest ypool ytest maxiters amp lengthScale rate)
  else
    Except.error PyError.unboundLocal

/-- `adam.active` including the latent reshape. -/
def activeFit {α : Type} (lib : GPLib α) (o : AdamOracle) (ndims : ℕ)
    (latTrain latVal latTest : α) (ytrain yval ytest : List ℚ)
    (maxiters : ℤ) (amp lengthScale rate : ℚ) : Except PyError ActiveResult :=
  if dimOk ndims then
    Except.ok (activeFitCore lib o ndims latTrain latVal latTest ytrain yval ytest
      maxiters amp lengthScale rate)
  else
    Except.error PyError.unboundLocal

/-- `adam.k_fold` including the latent reshape. -/
def kFoldFit {α : Type} (lib : GPLib α) (o : AdamOracle) (ndims : ℕ)
    (latTrain latVal latTest : α) (ytrain yval ytest : List ℚ)
    (maxiters : ℤ) (amp lengthScale rate : ℚ) : Except PyError KFoldResult :=
  if dimOk ndims then
    Except.ok (kFoldCore lib o ndims latTrain latVal latTest ytrain yval ytest
      maxiters amp lengthScale rate)
  else
    Except.error PyError.unboundLocal

/-!
## The active-learning driver loops of `src/gp-net.py` (`main`)

The sampling policies live in `aux/pool_sampling.py`, which is not part of the
sources under study; only their call sites in `gp-net.py` are.  They are
therefore kept abstract (`Selector` / `RSelector`), mirroring the tuple shapes
each call site unpacks.  The MEGNet training and latent-extraction steps
(`training.*`, `latent.*`) are likewise external and are abstracted away
(`RepeatEnv.latents`).
-/

/-- The 7-tuple the no-repeat driver unpacks from
`EntropySelection` / `RandomSelection` (`src/gp-net.py` lines 550-558):
`idx, latent_pool, ypool, latent_train, ytrain, latent_test, ytest`. -/
structure SelOut (α : Type) where
  idx : List ℕ
  latentPool : α
  ypool : List ℚ
  latentTrain : α
  ytrain : List ℚ
  latentTest : α
  ytest : List ℚ

/-- Abstract sampling policy as invoked by the no-repeat driver: arguments are
`(i, latent_train, ytrain, latent_test, ytest, latent_val, yval,
gp_variance, query, max_query)`. -/
structure Selector (α : Type) where
  select : ℕ → α → List ℚ → α → List ℚ → α → List ℚ → List ℚ → ℕ → ℕ → SelOut α

/-- Fixed data of a no-repeat active-learning run (`src/gp-net.py` lines
448-559): the validation partition, learning rate, `query = cycle[0]`,
`max_query = cycle[1]` and the abstracted numeric helpers. -/
structure NorepeatEnv (α : Type) where
  lib : GPLib α
  oracle : AdamOracle
  sel : Selector α
  ndims : ℕ
  latVal : α
  yval : List ℚ
  rate : ℚ
  query : ℕ
  maxQuery : ℕ

/-- Mutable locals of the no-repeat driver loop: the current train/test
partitions, the current `amp` / `length_scale` / `maxiters` bindings, plus an
audit log of the `(maxiters, amp, length_scale)` arguments of each
`adam.active` invocation and a count of selector invocations. -/
structure ALState (α : Type) where
  latTrain : α
  ytrain : List ℚ
  latTest : α
  ytest : List ℚ
  amp : ℚ
  lscale : ℚ
  miters : ℤ
  calls : List (ℤ × ℚ × ℚ)
  migrations : ℕ

/-- The `if i < max_query:` sampling block at the bottom of the no-repeat
loop body (`src/gp-net.py` lines 546-559). -/
def norepeatSelect {α : Type} (e : NorepeatEnv α) (i : ℕ) (s : ALState α)
    (variance : List ℚ) : ALState α :=
  if i < e.maxQuery then
    let out := e.sel.select i s.latTrain s.ytrain s.latTest s.ytest e.latVal e.yval
      variance e.query e.maxQuery
    { s with latTrain := out.latentTrain, ytrain := out.ytrain,
             latTest := out.latentTest, ytest := out.ytest,
             migrations := s.migrations + 1 }
  else
    s

/-- One cycle of the no-repeat driver (`src/gp-net.py` lines 517-559).
At `i = 0` the fit runs with the current `maxiters` and priors and the
`amp` / `length_scale` locals are rebound to the returned best pair
(tuple slots 4 and 5); at `i >= 1` the local `maxiters` is rebound to `0`
and the fit runs with the frozen `amp` / `length_scale` (the returned
`Amp` / `Length_Scale` are immediately overwritten with the frozen pair and the
lowercase locals are never reassigned). -/
def norepeatStep {α : Type} (e : NorepeatEnv α) (i : ℕ) (s : ALState α) : ALState α :=
  if i = 0 then
    let r := activeFitCore e.lib e.oracle e.ndims s.latTrain e.latVal s.latTest
      s.ytrain e.yval s.ytest s.miters s.amp s.lscale e.rate
    let s1 : ALState α :=
      { s with amp := r.bestAmp, lscale := r.bestLength,
               calls := s.calls ++ [(s.miters, s.amp, s.lscale)] }
    norepeatSelect e i s1 r.gpVariance
  else
    let r := activeFitCore e.lib e.oracle e.ndims s.latTrain e.latVal s.latTest
      s.ytrain e.yval s.ytest 0 s.amp s.lscale e.rate
    let s1 : ALState α :=
      { s with miters := 0, calls := s.calls ++ [(0, s.amp, s.lscale)] }
    norepeatSelect e i s1 r.gpVariance

/-- `for i in range(...)` over the remaining `fuel` cycles starting at cycle
index `i`. -/
def norepeatAux {α : Type} (e : NorepeatEnv α) : ℕ → ℕ → ALState α → ALState α
  | 0, _, s => s
  | fuel + 1, i, s => norepeatAux e fuel (i + 1) (norepeatStep e i s)

/-- Initial driver state: empty audit logs, the caller's initial partitions,
priors and iteration budget. -/
def initALState {α : Type} (latTrain : α) (ytrain : List ℚ) (latTest : α)
    (ytest : List ℚ) (miters : ℤ) (amp lscale : ℚ) : ALState α :=
  { latTrain := latTrain, ytrain := ytrain, latTest := latTest, ytest := ytest,
    amp := amp, lscale := lscale, miters := miters, calls := [], migrations := 0 }

/-- The whole no-repeat loop `for i in range(max_query+1):`. -/
def norepeatRun {α : Type} (e : NorepeatEnv α) (s0 : ALState α) : ALState α :=
  norepeatAux e (e.maxQuery + 1) 0 s0

/-- The 6-tuple the repeat driver unpacks from
`EntropySelection` / `RandomSelection` (`src/gp-net.py` lines 437-443):
`Xpool, ypool, Xtrain, ytrain, Xtest, ytest`. -/
structure RSelOut (β : Type) where
  xpool : β
  ypool : List ℚ
  xtrain : β
  ytrain : List ℚ
  xtest : β
  ytest : List ℚ

/-- Abstract sampling policy as invoked by the repeat driver. -/
structure RSelector (β : Type) where
  select : ℕ → β → List ℚ → β → List ℚ → β → List ℚ → List ℚ → ℕ → ℕ → RSelOut β

/-- Fixed data of a repeat active-learning run (`src/gp-net.py` lines
380-446).  `latents i xtest xtrain xval` abstracts the per-cycle MEGNet
retraining plus `latent.active(...)` producing
`(latent_train, latent_val, latent_test)`; a fresh optimiser run happens each
cycle, hence `oracle` is indexed by the cycle. -/
structure RepeatEnv (α β : Type) where
  lib : GPLib α
  oracle : ℕ → AdamOracle
  sel : RSelector β
  latents : ℕ → β → β → β → α × α × α
  ndims : ℕ
  xval : β
  yval : List ℚ
  miters : ℤ
  rate : ℚ
  query : ℕ
  maxQuery : ℕ

/-- Mutable locals of the repeat driver loop. -/
structure RState (β : Type) where
  xtrain : β
  ytrain : List ℚ
  xtest : β
  ytest : List ℚ
  xpool : β
  ypool : List ℚ
  amp : ℚ
  lscale : ℚ
  calls : List (ℤ × ℚ × ℚ)
  migrations : ℕ

/-- One cycle of the repeat driver (`src/gp-net.py` lines 400-446): every
cycle fits with the same `maxiters`, `amp` / `length_scale` are rebound to the
returned best pair each cycle, and sampling runs only when `i < max_query`. -/
def repeatStep {α β : Type} (e : RepeatEnv α β) (i : ℕ) (s : RState β) : RState β :=
  let lats := e.latents i s.xtest s.xtrain e.xval
  let r := activeFitCore e.lib (e.oracle i) e.ndims lats.1 lats.2.1 lats.2.2
    s.ytrain e.yval s.ytest e.miters s.amp s.lscale e.rate
  let s1 : RState β :=
    { s with amp := r.bestAmp, lscale := r.bestLength,
             calls := s.calls ++ [(e.miters, s.amp, s.lscale)] }
  if i < e.maxQuery then
    let out := e.sel.select i s1.xtrain s1.ytrain s1.xtest s1.ytest e.xval e.yval
      r.gpVariance e.query e.maxQuery
    { s1 with xpool := out.xpool, ypool := out.ypool,
              xtrain := out.xtrain, ytrain := out.ytrain,
              xtest := out.xtest, ytest := out.ytest,
              migrations := s1.migrations + 1 }
  else
    s1

/-- `for i in range(...)` of the repeat driver. -/
def repeatAux {α β : Type} (e : RepeatEnv α β) : ℕ → ℕ → RState β → RState β
  | 0, _, s => s
  | fuel + 1, i, s => repeatAux e fuel (i + 1) (repeatStep e i s)

/-- The whole repeat loop `for i in range(max_query+1):`. -/
def repeatRun {α β : Type} (e : RepeatEnv α β) (s0 : RState β) : RState β :=
  repeatAux e (e.maxQuery + 1) 0 s0

/-!
## Configuration checks in `main`
-/

/-- Python truthiness of `a and b` on numbers: the first operand when it is
zero (falsy), otherwise the second. -/
def pyTruthyAnd (a b : ℚ) : ℚ :=
  if a = 0 then a else b

/-- The fraction validation of the non-active-learning modes
(`src/gp-net.py` lines 211-217):
`assert (fraction[0] + fraction[1]) == 1.` followed by
`if not (0 < (fraction[0] and fraction[1]) < 1): sys.exit()`.
Returns `true` exactly when the run survives both checks. -/
def noactiveFracOk (f0 f1 : ℚ) : Bool :=
  decide (f0 + f1 = 1) && decide (0 < pyTruthyAnd f0 f1) && decide (pyTruthyAnd f0 f1 < 1)

/-- Python `int(q)`: truncation toward zero. -/
def pyInt (q : ℚ) : ℤ :=
  if 0 ≤ q then ⌊q⌋ else ⌈q⌉

/-- The eager test-depletion precheck of both active-learning drivers
(`src/gp-net.py` lines 396-398 and 478-480):
`assert (query * max_query) < int(stop * len(ytest))`.
Returns `true` exactly when the assert passes. -/
def alPrecheckOk (query maxQuery : ℕ) (stop : ℚ) (ntest : ℕ) : Bool :=
  decide (((query * maxQuery : ℕ) : ℤ) < pyInt (stop * ntest))

/-- Modelled from the spec: the sampling policies of `aux/pool_sampling.py`
are not among the sources under study; spec section 4.4 states that each
migration moves exactly `quota` points out of the test partition into the
training partition.  Size of the test partition after `i` migrations of
`query` points each. -/
def specTestSizeAfter (ntest query i : ℕ) : ℕ :=
  ntest - query * i

/-!
## The no-repeat initial pool split (`src/gp-net.py` lines 482-491)
-/

/-- Resolution of a (possibly negative) Python slice bound against a list of
length `len`: negative bounds count from the end and clamp at `0`, nonnegative
bounds clamp at `len`. -/
def pySliceIndex (len : ℕ) (n : ℤ) : ℕ :=
  if n < 0 then ((len : ℤ) + n).toNat else min n.toNat len

/-- Python `l[:n]`. -/
def pySliceTo {γ : Type} (l : List γ) (n : ℤ) : List γ :=
  l.take (pySliceIndex l.length n)

/-- Python `l[n:]`. -/
def pySliceFrom {γ : Type} (l : List γ) (n : ℤ) : List γ :=
  l.drop (pySliceIndex l.length n)

/-- `val_boundary = int(len(Xpool) * val_frac)` (`src/gp-net.py` line 482). -/
def valBoundary (poolLen : ℕ) (valFrac : ℚ) : ℤ :=
  pyInt ((poolLen : ℚ) * valFrac)

/-- `Xtrain = Xpool[:-val_boundary]` (`src/gp-net.py` lines 483-484). -/
def norepeatTrainSplit {γ : Type} (pool : List γ) (b : ℤ) : List γ :=
  pySliceTo pool (-b)

/-- `Xval = Xpool[-val_boundary:]` (`src/gp-net.py` lines 485-486). -/
def norepeatValSplit {γ : Type} (pool : List γ) (b : ℤ) : List γ :=
  pySliceFrom pool (-b)

/-!
## The positivity-preserving reparameterization (`src/optimizers/adam.py`
lines 91-99 / 257-265 / 433-441)

`tfp.util.TransformedVariable(initial_value=v, bijector=tfb.Exp())` keeps an
unconstrained trainable variable `raw` (initialised to `log v`) and exposes
`exp raw` as its value; `optimizer.apply_gradients` mutates only `raw`, by an
arbitrary signed increment.  This fragment is modelled over `ℝ` because the
content of the claim is the range of the real exponential.
-/

/-- The unconstrained variable after `i` optimiser updates, for an arbitrary
sequence of signed increments (whatever Adam computes from the gradients). -/
def rawSeq (raw0 : ℝ) (update : ℕ → ℝ) : ℕ → ℝ
  | 0 => raw0
  | i + 1 => rawSeq raw0 update i + update i

/-- The value exposed by the Exp-bijector transformed variable. -/
noncomputable def transformedValue (raw : ℝ) : ℝ :=
  Real.exp raw

/-- The recorded trace `OptAmp` over ℝ: `amp._value()` read after the update
of each iteration `i` of the optimisation loop. -/
noncomputable def optAmpTraceR (amp0 : ℝ) (update : ℕ → ℝ) (maxiters : ℕ) : List ℝ :=
  (List.range maxiters).map fun i => transformedValue (rawSeq (Real.log amp0) update (i + 1))

/-- The recorded trace `OptLength` over ℝ. -/
noncomputable def optLenTraceR (ls0 : ℝ) (update : ℕ → ℝ) (maxiters : ℕ) : List ℝ :=
  (List.range maxiters).map fun i => transformedValue (rawSeq (Real.log ls0) update (i + 1))

/-!
## Specification-side predicates and concrete instances used by witnesses
-/

/-- `j` is the index of the first occurrence of the minimum of `l` — the
specification's reading of "the iteration index minimizing validation MAE
(ties broken by first occurrence)". -/
def IsFirstMinIdx (l : List ℚ) (j : ℕ) : Prop :=
  j < l.length ∧ (∀ k, k < l.length → l.getD j 0 ≤ l.getD k 0) ∧
    (∀ k, k < j → l.getD j 0 < l.getD k 0)

/-- Whether an `Except` carries a success value (the call returned instead of
raising). -/
def exceptOk {ε γ : Type} : Except ε γ → Bool
  | Except.ok _ => true
  | Except.error _ => false

/-- Initial repeat-driver state with empty audit logs. -/
def initRState {β : Type} (xtrain : β) (ytrain : List ℚ) (xtest : β)
    (ytest : List ℚ) (xpool : β) (ypool : List ℚ) (amp lscale : ℚ) : RState β :=
  { xtrain := xtrain, ytrain := ytrain, xtest := xtest, ytest := ytest,
    xpool := xpool, ypool := ypool, amp := amp, lscale := lscale,
    calls := [], migrations := 0 }

/-- A concrete instantiation of the external-library abstraction, used to
evaluate the embedding on explicit inputs: the posterior mean/stddev/variance
at a single query point are just the kernel amplitude. -/
def demoLib : GPLib Unit :=
  { post := fun a _ _ _ _ _ => { mean := [a], stddev := [a], variance := [a] }
    pearson := fun _ _ => 0
    stdAbsErr := fun _ _ => 0 }

/-- A concrete optimiser trace: the recorded amplitude after iteration `i` is
`i + 1`, the recorded length scale is constantly `1`. -/
def demoOracle : AdamOracle :=
  { loss := fun _ => 0, ampVal := fun i => (i : ℚ) + 1, lenVal := fun _ => 1 }

/-- A second concrete optimiser trace, everywhere different from
`demoOracle`, used to exhibit oracle-independence of the no-optimisation
path. -/
def demoOracle2 : AdamOracle :=
  { loss := fun _ => 5, ampVal := fun _ => 7, lenVal := fun _ => 9 }

/-- A concrete no-repeat selector for witnesses: drops the first test point
into the training set. -/
def demoSelector : Selector Unit :=
  { select := fun _ _ ytrain _ ytest _ _ _ _ _ =>
      { idx := [0], latentPool := (), ypool := [],
        latentTrain := (), ytrain := ytrain ++ ytest.take 1,
        latentTest := (), ytest := ytest.drop 1 } }

/-!
## Helper lemmas: `np.argmin` selects the first minimum
-/

theorem minimumQ_cons_le (t : List ℚ) :
    ∀ x : ℚ, ∀ k, k < (x :: t).length → minimumQ (x :: t) ≤ (x :: t).getD k 0 := by
  induction t with
  | nil =>
    intro x k hk
    match k with
    | 0 => simp [minimumQ]
    | k + 1 =>
      simp only [List.length_cons, List.length_nil] at hk
      omega
  | cons y t ih =>
    intro x k hk
    match k with
    | 0 => simp [minimumQ]
    | k + 1 =>
      have hk' : k < (y :: t).length := by simpa using hk
      calc minimumQ (x :: y :: t) ≤ minimumQ (y :: t) := by simp [minimumQ]
        _ ≤ (y :: t).getD k 0 := ih y k hk'
        _ = (x :: y :: t).getD (k + 1) 0 := rfl

theorem argminQ_cons_lt (t : List ℚ) :
    ∀ x : ℚ, argminQ (x :: t) < (x :: t).length := by
  induction t with
  | nil => intro x; simp [argminQ]
  | cons y t ih =>
    intro x
    by_cases h : x ≤ minimumQ (y :: t)
    · simp [argminQ, h]
    · simpa [argminQ, h] using ih y

theorem getD_argminQ_cons (t : List ℚ) :
    ∀ x : ℚ, (x :: t).getD (argminQ (x :: t)) 0 = minimumQ (x :: t) := by
  induction t with
  | nil => intro x; simp [argminQ, minimumQ]
  | cons y t ih =>
    intro x
    by_cases h : x ≤ minimumQ (y :: t)
    · simp [argminQ, minimumQ, h]
    · have hx : minimumQ (x :: y :: t) = minimumQ (y :: t) := by
        simpa [minimumQ] using min_eq_right (le_of_lt (lt_of_not_le h))
      simp only [argminQ, if_neg h, List.getD_cons_succ, hx]
      exact ih y

theorem argminQ_cons_first (t : List ℚ) :
    ∀ x : ℚ, ∀ k, k < argminQ (x :: t) → minimumQ (x :: t) < (x :: t).getD k 0 := by
  induction t with
  | nil => intro x k hk; simp [argminQ] at hk
  | cons y t ih =>
    intro x k hk
    by_cases h : x ≤ minimumQ (y :: t)
    · simp [argminQ, h] at hk
    · have hm : minimumQ (x :: y :: t) = minimumQ (y :: t) := by
        simpa [minimumQ] using min_eq_right (le_of_lt (lt_of_not_le h))
      rw [argminQ, if_neg h] at hk
      match k with
      | 0 =>
        simpa [hm] using lt_of_not_le h
      | k + 1 =>
        have hk' : k < argminQ (y :: t) := by omega
        simpa [hm] using ih y k hk'

/-- `np.argmin` picks the index of the first occurrence of the minimum. -/
theorem argminQ_isFirstMinIdx (l : List ℚ) (h : l ≠ []) :
    IsFirstMinIdx l (argminQ l) := by
  match l, h with
  | x :: t, _ =>
    refine ⟨argminQ_cons_lt t x, ?_, ?_⟩
    · intro k hk
      rw [getD_argminQ_cons t x]
      exact minimumQ_cons_le t x k hk
    · intro k hk
      rw [getD_argminQ_cons t x]
      exact argminQ_cons_first t x k hk

/-!
## Helper lemmas: structure of the driver loops
-/

theorem norepeatStep_succ_amp {α : Type} (e : NorepeatEnv α) (i : ℕ) (s : ALState α) :
    (norepeatStep e (i + 1) s).amp = s.amp := by
  simp only [norepeatStep, norepeatSelect, Nat.succ_ne_zero, if_false]
  split <;> rfl

theorem norepeatStep_succ_lscale {α : Type} (e : NorepeatEnv α) (i : ℕ) (s : ALState α) :
    (norepeatStep e (i + 1) s).lscale = s.lscale := by
  simp only [norepeatStep, norepeatSelect, Nat.succ_ne_zero, if_false]
  split <;> rfl

theorem norepeatStep_succ_calls {α : Type} (e : NorepeatEnv α) (i : ℕ) (s : ALState α) :
    (norepeatStep e (i + 1) s).calls = s.calls ++ [((0 : ℤ), s.amp, s.lscale)] := by
  simp only [norepeatStep, norepeatSelect, Nat.succ_ne_zero, if_false]
  split <;> rfl

theorem norepeatStep_zero_amp {α : Type} (e : NorepeatEnv α) (s : ALState α) :
    (norepeatStep e 0 s).amp
      = (activeFitCore e.lib e.oracle e.ndims s.latTrain e.latVal s.latTest
          s.ytrain e.yval s.ytest s.miters s.amp s.lscale e.rate).bestAmp := by
  simp only [norepeatStep, norepeatSelect, reduceIte]
  split <;> rfl

theorem norepeatStep_zero_lscale {α : Type} (e : NorepeatEnv α) (s : ALState α) :
    (norepeatStep e 0 s).lscale
      = (activeFitCore e.lib e.oracle e.ndims s.latTrain e.latVal s.latTest
          s.ytrain e.yval s.ytest s.miters s.amp s.lscale e.rate).bestLength := by
  simp only [norepeatStep, norepeatSelect, reduceIte]
  split <;> rfl

theorem norepeatStep_zero_calls {α : Type} (e : NorepeatEnv α) (s : ALState α) :
    (norepeatStep e 0 s).calls = s.calls ++ [(s.miters, s.amp, s.lscale)] := by
  simp only [norepeatStep, norepeatSelect, reduceIte]
  split <;> rfl

theorem norepeatStep_migrations {α : Type} (e : NorepeatEnv α) (i : ℕ) (s : ALState α) :
    (norepeatStep e i s).migrations
      = if i < e.maxQuery then s.migrations + 1 else s.migrations := by
  by_cases h : i = 0 <;>
    simp only [norepeatStep, norepeatSelect, h, if_pos, if_neg, reduceIte] <;>
    split <;> simp_all

theorem norepeatAux_frozen_calls {α : Type} (e : NorepeatEnv α) :
    ∀ (fuel i : ℕ) (s : ALState α),
      (norepeatAux e fuel (i + 1) s).calls
        = s.calls ++ List.replicate fuel ((0 : ℤ), s.amp, s.lscale) := by
  intro fuel
  induction fuel with
  | zero => intro i s; simp [norepeatAux]
  | succ f ih =>
    intro i s
    rw [norepeatAux, ih (i + 1) (norepeatStep e (i + 1) s),
      norepeatStep_succ_amp, norepeatStep_succ_lscale, norepeatStep_succ_calls,
      List.replicate_succ]
    simp

theorem norepeatAux_migrations {α : Type} (e : NorepeatEnv α) :
    ∀ (fuel i : ℕ) (s : ALState α), i + fuel = e.maxQuery + 1 →
      (norepeatAux e fuel i s).migrations = s.migrations + (fuel - 1) := by
  intro fuel
  induction fuel with
  | zero => intro i s _; simp [norepeatAux]
  | succ f ih =>
    intro i s h
    rcases Nat.eq_zero_or_pos f with hf | hf
    · subst hf
      have hi : ¬ i < e.maxQuery := by omega
      rw [norepeatAux, norepeatAux, norepeatStep_migrations, if_neg hi]
      omega
    · have hi : i < e.maxQuery := by omega
      rw [norepeatAux, ih (i + 1) (norepeatStep e i s) (by omega),
        norepeatStep_migrations, if_pos hi]
      omega

theorem norepeatRun_calls {α : Type} (e : NorepeatEnv α) (s0 : ALState α) :
    (norepeatRun e s0).calls
      = s0.calls ++ ((s0.miters, s0.amp, s0.lscale)
          :: List.replicate e.maxQuery ((0 : ℤ),
              (activeFitCore e.lib e.oracle e.ndims s0.latTrain e.latVal s0.latTest
                s0.ytrain e.yval s0.ytest s0.miters s0.amp s0.lscale e.rate).bestAmp,
              (activeFitCore e.lib e.oracle e.ndims s0.latTrain e.latVal s0.latTest
                s0.ytrain e.yval s0.ytest s0.miters s0.amp s0.lscale e.rate).bestLength)) := by
  unfold norepeatRun
  rw [norepeatAux, norepeatAux_frozen_calls e e.maxQuery 0 (norepeatStep e 0 s0),
    norepeatStep_zero_amp, norepeatStep_zero_lscale, norepeatStep_zero_calls]
  simp

theorem norepeatRun_migrations {α : Type} (e : NorepeatEnv α) (s0 : ALState α) :
    (norepeatRun e s0).migrations = s0.migrations + e.maxQuery := by
  unfold norepeatRun
  rw [norepeatAux_migrations e (e.maxQuery + 1) 0 s0 (by omega)]
  omega

theorem repeatStep_calls {α β : Type} (e : RepeatEnv α β) (i : ℕ) (s : RState β) :
    (repeatStep e i s).calls = s.calls ++ [(e.miters, s.amp, s.lscale)] := by
  simp only [repeatStep]
  split <;> rfl

theorem repeatStep_migrations {α β : Type} (e : RepeatEnv α β) (i : ℕ) (s : RState β) :
    (repeatStep e i s).migrations
      = if i < e.maxQuery then s.migrations + 1 else s.migrations := by
  simp only [repeatStep]
  split <;> simp_all

theorem repeatAux_calls_length {α β : Type} (e : RepeatEnv α β) :
    ∀ (fuel i : ℕ) (s : RState β),
      (repeatAux e fuel i s).calls.length = s.calls.length + fuel := by
  intro fuel
  induction fuel with
  | zero => intro i s; simp [repeatAux]
  | succ f ih =>
    intro i s
    rw [repeatAux, ih (i + 1) (repeatStep e i s), repeatStep_calls]
    simp
    omega

theorem repeatAux_migrations {α β : Type} (e : RepeatEnv α β) :
    ∀ (fuel i : ℕ) (s : RState β), i + fuel = e.maxQuery + 1 →
      (repeatAux e fuel i s).migrations = s.migrations + (fuel - 1) := by
  intro fuel
  induction fuel with
  | zero => intro i s _; simp [repeatAux]
  | succ f ih =>
    intro i s h
    rcases Nat.eq_zero_or_pos f with hf | hf
    · subst hf
      have hi : ¬ i < e.maxQuery := by omega
      rw [repeatAux, repeatAux, repeatStep_migrations, if_neg hi]
      omega
    · have hi : i < e.maxQuery := by omega
      rw [repeatAux, ih (i + 1) (repeatStep e i s) (by omega),
        repeatStep_migrations, if_pos hi]
      omega

/-!
## Claim theorems
-/

/-- C4: In no-repeat active learning, only cycle 0 performs hyperparameter
optimization with the requested iteration budget; every later cycle invokes the
fit with `max_iters` forced to `0`, passing exactly the hyperparameters
optimized at cycle 0 (the `bestAmp` / `bestLength` of the cycle-0
`adam.active` call), and a fit with `max_iters = 0` uses the supplied
hyperparameters unchanged.  The audit log `calls` records the
`(maxiters, amp, length_scale)` arguments of each `adam.active` invocation. -/
theorem c4_norepeat_freeze {α : Type} (e : NorepeatEnv α)
    (latTrain : α) (ytrain : List ℚ) (latTest : α) (ytest : List ℚ)
    (miters : ℤ) (amp lscale : ℚ) :
    (norepeatRun e (initALState latTrain ytrain latTest ytest miters amp lscale)).calls
      = (miters, amp, lscale)
        :: List.replicate e.maxQuery ((0 : ℤ),
            (activeFitCore e.lib e.oracle e.ndims latTrain e.latVal latTest
              ytrain e.yval ytest miters amp lscale e.rate).bestAmp,
            (activeFitCore e.lib e.oracle e.ndims latTrain e.latVal latTest
              ytrain e.yval ytest miters amp lscale e.rate).bestLength)
    ∧ ∀ (lt lv lte : α) (yt yv yte : List ℚ) (a l r : ℚ),
        (activeFitCore e.lib e.oracle e.ndims lt lv lte yt yv yte 0 a l r).bestAmp = a
        ∧ (activeFitCore e.lib e.oracle e.ndims lt lv lte yt yv yte 0 a l r).bestLength = l := by
  constructor
  · rw [norepeatRun_calls]
    simp [initALState]
  · intro lt lv lte yt yv yte a l r
    constructor <;> simp [activeFitCore]

/-- C6: Every active-learning run (repeat and no-repeat driver alike) executes
exactly `max_cycles + 1` fit cycles — one `adam.active` call is logged per
cycle index `0 .. max_cycles` — and sample migration runs only on cycles with
`i < max_cycles`, so exactly `max_cycles` migrations happen and none follows
the final cycle; in particular `max_cycles = 0` yields one fit and zero
migrations. -/
theorem c6_cycle_counts {α β : Type} (e : NorepeatEnv α) (e2 : RepeatEnv α β)
    (latTrain : α) (ytrain : List ℚ) (latTest : α) (ytest : List ℚ)
    (miters : ℤ) (amp lscale : ℚ)
    (xtrain xtest xpool : β) (ytrain2 ytest2 ypool2 : List ℚ) (amp2 lscale2 : ℚ) :
    (norepeatRun e (initALState latTrain ytrain latTest ytest miters amp lscale)).calls.length
        = e.maxQuery + 1
    ∧ (norepeatRun e (initALState latTrain ytrain latTest ytest miters amp lscale)).migrations
        = e.maxQuery
    ∧ (repeatRun e2 (initRState xtrain ytrain2 xtest ytest2 xpool ypool2 amp2 lscale2)).calls.length
        = e2.maxQuery + 1
    ∧ (repeatRun e2 (initRState xtrain ytrain2 xtest ytest2 xpool ypool2 amp2 lscale2)).migrations
        = e2.maxQuery := by
  refine ⟨?_, ?_, ?_, ?_⟩
  · rw [norepeatRun_calls]
    simp [initALState]
  · rw [norepeatRun_migrations]
    simp [initALState]
  · unfold repeatRun
    rw [repeatAux_calls_length]
    simp [initRState]
  · unfold repeatRun
    rw [repeatAux_migrations e2 (e2.maxQuery + 1) 0 _ (by omega)]
    simp [initRState]

/-- C7: For every optimization run the recorded amplitude and length-scale
are strictly positive at every iteration, whatever the sign or magnitude of
the increments the optimiser applies, because the updates act on the
unconstrained variable and the recorded value is its exponential. -/
theorem c7_positive_trace (amp0 ls0 : ℝ) (uA uL : ℕ → ℝ) (maxiters : ℕ) (x : ℝ)
    (hx : x ∈ optAmpTraceR amp0 uA maxiters ∨ x ∈ optLenTraceR ls0 uL maxiters) :
    0 < x := by
  rcases hx with hx | hx
  · rw [optAmpTraceR] at hx
    rcases List.mem_map.mp hx with ⟨i, _, rfl⟩
    exact Real.exp_pos _
  · rw [optLenTraceR] at hx
    rcases List.mem_map.mp hx with ⟨i, _, rfl⟩
    exact Real.exp_pos _

/-- Witness for C7 at a concrete run: one iteration, a negative update. -/
theorem c7_positive_trace_witness :
    (transformedValue (rawSeq (Real.log 1) (fun _ => -1) 1)
        ∈ optAmpTraceR 1 (fun _ => -1) 1
      ∨ transformedValue (rawSeq (Real.log 1) (fun _ => -1) 1)
        ∈ optLenTraceR 1 (fun _ => -1) 1)
    ∧ 0 < transformedValue (rawSeq (Real.log 1) (fun _ => -1) 1) := by
  have hmem : transformedValue (rawSeq (Real.log 1) (fun _ => -1) 1)
      ∈ optAmpTraceR 1 (fun _ => -1) 1 := by
    simp [optAmpTraceR]
  exact ⟨Or.inl hmem,
    c7_positive_trace 1 1 (fun _ => -1) (fun _ => -1) 1 _ (Or.inl hmem)⟩

/-- C10: In the no-repeat initial pool split, when
`int(len(pool) * validation_fraction)` is `0` the slices `pool[:-0]` and
`pool[-0:]` make the training set empty and the validation set the whole
pool; for every boundary value the two slices are positionally disjoint
(their concatenation is the pool) and their sizes sum to the pool size. -/
theorem c10_pool_split {γ : Type} (pool : List γ) (valFrac : ℚ) :
    (valBoundary pool.length valFrac = 0 →
        norepeatTrainSplit pool (valBoundary pool.length valFrac) = []
        ∧ norepeatValSplit pool (valBoundary pool.length valFrac) = pool)
    ∧ norepeatTrainSplit pool (valBoundary pool.length valFrac)
        ++ norepeatValSplit pool (valBoundary pool.length valFrac) = pool
    ∧ (norepeatTrainSplit pool (valBoundary pool.length valFrac)).length
        + (norepeatValSplit pool (valBoundary pool.length valFrac)).length
        = pool.length := by
  refine ⟨?_, ?_, ?_⟩
  · intro h
    rw [h]
    constructor
    · simp [norepeatTrainSplit, pySliceTo, pySliceIndex]
    · simp [norepeatValSplit, pySliceFrom, pySliceIndex]
  · show pool.take _ ++ pool.drop _ = pool
    exact List.take_append_drop _ _
  · show (pool.take _).length + (pool.drop _).length = pool.length
    simp
    omega

/-- Witness for C10 at a concrete pool of three points and validation
fraction 1/4, where the computed boundary is 0. -/
theorem c10_pool_split_witness :
    (valBoundary ([(0 : ℚ), 1, 2]).length (1/4) = 0 →
        norepeatTrainSplit [(0 : ℚ), 1, 2] (valBoundary ([(0 : ℚ), 1, 2]).length (1/4)) = []
        ∧ norepeatValSplit [(0 : ℚ), 1, 2] (valBoundary ([(0 : ℚ), 1, 2]).length (1/4))
            = [(0 : ℚ), 1, 2])
    ∧ norepeatTrainSplit [(0 : ℚ), 1, 2] (valBoundary ([(0 : ℚ), 1, 2]).length (1/4))
        ++ norepeatValSplit [(0 : ℚ), 1, 2] (valBoundary ([(0 : ℚ), 1, 2]).length (1/4))
        = [(0 : ℚ), 1, 2]
    ∧ (norepeatTrainSplit [(0 : ℚ), 1, 2] (valBoundary ([(0 : ℚ), 1, 2]).length (1/4))).length
        + (norepeatValSplit [(0 : ℚ), 1, 2] (valBoundary ([(0 : ℚ), 1, 2]).length (1/4))).length
        = ([(0 : ℚ), 1, 2]).length :=
  c10_pool_split [(0 : ℚ), 1, 2] (1/4)

/-- The combination of `assert (fraction[0] + fraction[1]) == 1.` with the
truthiness-laden chained comparison `0 < (fraction[0] and fraction[1]) < 1`
happens to accept exactly the valid pairs: under the sum constraint, a
fraction outside the open unit interval forces its partner outside as well,
and a zero first fraction short-circuits `and` to the falsy `0`. -/
theorem noactiveFracOk_iff (f0 f1 : ℚ) :
    noactiveFracOk f0 f1 = true
      ↔ (0 < f0 ∧ f0 < 1 ∧ 0 < f1 ∧ f1 < 1 ∧ f0 + f1 = 1) := by
  constructor
  · intro hok
    simp only [noactiveFracOk, Bool.and_eq_true, decide_eq_true_eq] at hok
    obtain ⟨⟨hsum, hlo⟩, hhi⟩ := hok
    by_cases h : f0 = 0
    · rw [pyTruthyAnd, if_pos h] at hlo
      exact absurd hlo (by simp [h])
    · rw [pyTruthyAnd, if_neg h] at hlo
      rw [pyTruthyAnd, if_neg h] at hhi
      exact ⟨by linarith, by linarith, hlo, hhi, hsum⟩
  · rintro ⟨h0, _, h2, h3, h4⟩
    have h : f0 ≠ 0 := ne_of_gt h0
    simp [noactiveFracOk, pyTruthyAnd, h, h2, h3, h4]

/-- C8: In the non-active-learning modes, a supplied train/test fraction pair
with either fraction outside the open interval (0,1), or not summing to 1, is
rejected by the configuration checks at `src/gp-net.py` lines 211-217, which
run before any fitting. -/
theorem c8_frac_reject (f0 f1 : ℚ)
    (h : f0 ≤ 0 ∨ 1 ≤ f0 ∨ f1 ≤ 0 ∨ 1 ≤ f1 ∨ f0 + f1 ≠ 1) :
    noactiveFracOk f0 f1 = false := by
  rcases Bool.eq_false_or_eq_true (noactiveFracOk f0 f1) with hb | hb
  case inr => exact hb
  obtain ⟨a, b, c, d, e⟩ := (noactiveFracOk_iff f0 f1).mp hb
  rcases h with h | h | h | h | h
  · linarith
  · linarith
  · linarith
  · linarith
  · exact absurd e h

/-- Witness for C8: the pair (3/2, -1/2) sums to 1 but lies outside (0,1)
and is rejected. -/
theorem c8_frac_reject_witness :
    ((3/2 : ℚ) ≤ 0 ∨ 1 ≤ (3/2 : ℚ) ∨ (-1/2 : ℚ) ≤ 0 ∨ 1 ≤ (-1/2 : ℚ)
        ∨ (3/2 : ℚ) + (-1/2) ≠ 1)
    ∧ noactiveFracOk (3/2) (-1/2) = false :=
  ⟨Or.inr (Or.inl (by norm_num)),
    c8_frac_reject (3/2) (-1/2) (Or.inr (Or.inl (by norm_num)))⟩

/-- C2 (amended): a fit call succeeds exactly when the trailing feature
dimensionality is 2 or 3; every other dimensionality — including 1 — makes
the call fail, and with the same unbound-local failure (the fall-through of
the reshape `if`/`elif` chain), not a distinct validation error. -/
theorem c2_dim_gate {α : Type} (lib : GPLib α) (o : AdamOracle) (ndims : ℕ)
    (p v q : α) (ys yv yt : List ℚ) (maxiters : ℤ) (amp lscale rate : ℚ) :
    (exceptOk (ttsFit lib o ndims p q ys yt maxiters amp lscale rate) = true
        ↔ (ndims = 2 ∨ ndims = 3))
    ∧ (exceptOk (activeFit lib o ndims p v q ys yv yt maxiters amp lscale rate) = true
        ↔ (ndims = 2 ∨ ndims = 3))
    ∧ (exceptOk (kFoldFit lib o ndims p v q ys yv yt maxiters amp lscale rate) = true
        ↔ (ndims = 2 ∨ ndims = 3))
    ∧ (¬ (ndims = 2 ∨ ndims = 3) →
        ttsFit lib o ndims p q ys yt maxiters amp lscale rate
            = Except.error PyError.unboundLocal
        ∧ activeFit lib o ndims p v q ys yv yt maxiters amp lscale rate
            = Except.error PyError.unboundLocal
        ∧ kFoldFit lib o ndims p v q ys yv yt maxiters amp lscale rate
            = Except.error PyError.unboundLocal) := by
  have hd : dimOk ndims = true ↔ (ndims = 2 ∨ ndims = 3) := by
    simp [dimOk]
  by_cases hdim : dimOk ndims = true
  · have hor := hd.mp hdim
    refine ⟨?_, ?_, ?_, fun hno => absurd hor hno⟩ <;>
      simp [ttsFit, activeFit, kFoldFit, exceptOk, hdim, hor]
  · have hor : ¬ (ndims = 2 ∨ ndims = 3) := fun hcon => hdim (hd.mpr hcon)
    have hfalse : dimOk ndims = false := by
      rcases Bool.eq_false_or_eq_true (dimOk ndims) with hb | hb
      · exact absurd hb hdim
      · exact hb
    refine ⟨?_, ?_, ?_, fun _ => ?_⟩ <;>
      simp [ttsFit, activeFit, kFoldFit, exceptOk, hfalse, hor]

/-- Witness for C2 (amended), applied at dimensionality 4. -/
theorem c2_dim_gate_witness :
    (exceptOk (ttsFit demoLib demoOracle 4 () () [0] [0] 0 1 1 (1/100)) = true
        ↔ ((4 : ℕ) = 2 ∨ (4 : ℕ) = 3))
    ∧ (exceptOk (activeFit demoLib demoOracle 4 () () () [0] [0] [0] 0 1 1 (1/100)) = true
        ↔ ((4 : ℕ) = 2 ∨ (4 : ℕ) = 3))
    ∧ (exceptOk (kFoldFit demoLib demoOracle 4 () () () [0] [0] [0] 0 1 1 (1/100)) = true
        ↔ ((4 : ℕ) = 2 ∨ (4 : ℕ) = 3))
    ∧ (¬ ((4 : ℕ) = 2 ∨ (4 : ℕ) = 3) →
        ttsFit demoLib demoOracle 4 () () [0] [0] 0 1 1 (1/100)
            = Except.error PyError.unboundLocal
        ∧ activeFit demoLib demoOracle 4 () () () [0] [0] [0] 0 1 1 (1/100)
            = Except.error PyError.unboundLocal
        ∧ kFoldFit demoLib demoOracle 4 () () () [0] [0] [0] 0 1 1 (1/100)
            = Except.error PyError.unboundLocal) :=
  c2_dim_gate demoLib demoOracle 4 () () () [0] [0] [0] 0 1 1 (1/100)

/-- C2 counterexample: dimensionality 1, which the claim calls a supported
value whose calls succeed, in fact fails — the reshape chain has no branch
for it, so the unbound `latent_*` locals are hit exactly as for any other
unsupported dimensionality. -/
theorem c2_counterexample :
    activeFit demoLib demoOracle 1 () () () [0] [0] [0] 0 1 1 (1/100)
      = Except.error PyError.unboundLocal := rfl

/-- C3: A fit call with `max_iters <= 0` (and a well-formed dimensionality)
never enters the optimization loop: the caller-supplied amplitude and
length-scale are used unchanged for a single posterior evaluation, the
returned traces are `None`, and the call completes normally.  The right-hand
sides mention neither the optimiser oracle nor the learning rate: the loop is
skipped entirely. -/
theorem c3_no_opt_path {α : Type} (lib : GPLib α) (o : AdamOracle) (ndims : ℕ)
    (latTrain latVal latTest : α) (ytrain yval ytest : List ℚ)
    (maxiters : ℤ) (amp lscale rate : ℚ)
    (hm : maxiters ≤ 0) (hdim : dimOk ndims = true) :
    ttsFit lib o ndims latTrain latTest ytrain ytest maxiters amp lscale rate
      = Except.ok
          { optLoss := none
            optAmp := Sum.inl amp
            optLength := Sum.inl lscale
            mae := maeQ ytest (lib.post amp lscale ndims latTest latTrain ytrain).mean
            mse := mseQ ytest (lib.post amp lscale ndims latTest latTrain ytrain).mean
            sae := lib.stdAbsErr ytest (lib.post amp lscale ndims latTest latTrain ytrain).mean
            gpMean := (lib.post amp lscale ndims latTest latTrain ytrain).mean
            gpStddev := (lib.post amp lscale ndims latTest latTrain ytrain).stddev
            r := lib.pearson ytest (lib.post amp lscale ndims latTest latTrain ytrain).mean }
    ∧ activeFit lib o ndims latTrain latVal latTest ytrain yval ytest maxiters amp lscale rate
      = Except.ok
          { optLoss := none
            optAmp := none
            optLength := none
            bestAmp := amp
            bestLength := lscale
            gpMean := (lib.post amp lscale ndims latTest latTrain ytrain).mean
            gpStddev := (lib.post amp lscale ndims latTest latTrain ytrain).stddev
            gpVariance := (lib.post amp lscale ndims latTest latTrain ytrain).variance
            bestMae := none
            maeTest := maeQ ytest (lib.post amp lscale ndims latTest latTrain ytrain).mean
            mseTest := mseQ ytest (lib.post amp lscale ndims latTest latTrain ytrain).mean
            saeTest := lib.stdAbsErr ytest (lib.post amp lscale ndims latTest latTrain ytrain).mean
            r := lib.pearson ytest (lib.post amp lscale ndims latTest latTrain ytrain).mean }
    ∧ kFoldFit lib o ndims latTrain latVal latTest ytrain yval ytest maxiters amp lscale rate
      = Except.ok
          { amp := amp
            lengthScale := lscale
            optMaeVal := none
            optMseVal := none
            maeTest := maeQ ytest (lib.post amp lscale ndims latTest latTrain ytrain).mean } := by
  refine ⟨?_, ?_, ?_⟩ <;>
    simp [ttsFit, activeFit, kFoldFit, ttsFitCore, activeFitCore, kFoldCore, hdim, hm]

/-- Witness for C3 at `maxiters = 0`, dimensionality 2 and concrete data. -/
theorem c3_no_opt_path_witness :
    (0 : ℤ) ≤ 0 ∧ dimOk 2 = true
    ∧ activeFit demoLib demoOracle 2 () () () [0] [0] [0] 0 1 1 (1/100)
      = Except.ok
          { optLoss := none
            optAmp := none
            optLength := none
            bestAmp := 1
            bestLength := 1
            gpMean := (demoLib.post 1 1 2 () () [0]).mean
            gpStddev := (demoLib.post 1 1 2 () () [0]).stddev
            gpVariance := (demoLib.post 1 1 2 () () [0]).variance
            bestMae := none
            maeTest := maeQ [0] (demoLib.post 1 1 2 () () [0]).mean
            mseTest := mseQ [0] (demoLib.post 1 1 2 () () [0]).mean
            saeTest := demoLib.stdAbsErr [0] (demoLib.post 1 1 2 () () [0]).mean
            r := demoLib.pearson [0] (demoLib.post 1 1 2 () () [0]).mean } :=
  ⟨le_refl 0, rfl,
    (c3_no_opt_path demoLib demoOracle 2 () () () [0] [0] [0] 0 1 1 (1/100)
      (le_refl 0) rfl).2.1⟩

/-- C9: With `max_iters <= 0` the posterior evaluation is a deterministic
function of the kernel hyperparameters and the train/query points and
targets: two calls agreeing on those return identical results even when the
optimiser behaviour and the learning rate differ arbitrarily (no optimizer
randomness is involved on this path). -/
theorem c9_deterministic_no_opt {α : Type} (lib : GPLib α) (o1 o2 : AdamOracle)
    (ndims : ℕ) (latTrain latVal latTest : α) (ytrain yval ytest : List ℚ)
    (maxiters : ℤ) (amp lscale : ℚ) (rate1 rate2 : ℚ) (hm : maxiters ≤ 0) :
    activeFit lib o1 ndims latTrain latVal latTest ytrain yval ytest maxiters amp lscale rate1
      = activeFit lib o2 ndims latTrain latVal latTest ytrain yval ytest maxiters amp lscale rate2
    ∧ ttsFit lib o1 ndims latTrain latTest ytrain ytest maxiters amp lscale rate1
      = ttsFit lib o2 ndims latTrain latTest ytrain ytest maxiters amp lscale rate2 := by
  constructor <;> simp [activeFit, ttsFit, activeFitCore, ttsFitCore, hm]

/-- Witness for C9: two calls with different oracles and learning rates
agree at `maxiters = 0`. -/
theorem c9_deterministic_no_opt_witness :
    (0 : ℤ) ≤ 0
    ∧ activeFit demoLib demoOracle 2 () () () [0] [0] [0] 0 1 1 (1/100)
      = activeFit demoLib demoOracle2 2 () () () [0] [0] [0] 0 1 1 (9/10) :=
  ⟨le_refl 0,
    (c9_deterministic_no_opt demoLib demoOracle demoOracle2 2 () () () [0] [0] [0]
      0 1 1 (1/100) (9/10) (le_refl 0)).1⟩

/-- C1 counterexample: in `train_test_split` mode with two iterations and a
trace whose first iteration has the smaller validation MAE, the returned
posterior mean is NOT the one recomputed with the best (argmin) iterate's
hyperparameters — the code returns the posterior left over from the final
loop iteration. -/
theorem c1_counterexample :
    (ttsFitCore demoLib demoOracle 2 () () [0] [0] 2 1 1 (1/100)).gpMean
      ≠ (demoLib.post
          ((optAmpList demoOracle 2).getD
            (argminQ (optMaeList demoLib demoOracle 2 () () [0] [0] 2)) 0)
          ((optLenList demoOracle 2).getD
            (argminQ (optMaeList demoLib demoOracle 2 () () [0] [0] 2)) 0)
          2 () () [0]).mean := by
  norm_num [ttsFitCore, demoLib, demoOracle, optAmpList, optLenList, optMaeList,
    optMseList, optSaeList, optLossList, maeQ, mseQ, argminQ, minimumQ,
    List.range_succ]
  decide

/-- C1 (amended): with `max_iters > 0` there is an iteration index `j` — the
first index minimizing the validation-MAE trace — such that in `adam.active`
the returned best amplitude/length-scale are the trace values at `j` and the
returned posterior mean/stddev/variance are recomputed at the query (test)
points with those hyperparameters, and in `adam.k_fold` the returned
amplitude/length-scale are likewise the trace values at `j`; in
`adam.train_test_split`, however, the returned posterior mean/stddev are the
ones computed with the FINAL iteration's hyperparameters (index
`maxiters - 1`), not the best iterate's. -/
theorem c1_best_iterate {α : Type} (lib : GPLib α) (o : AdamOracle) (ndims : ℕ)
    (latTrain latVal latTest : α) (ytrain yval ytest : List ℚ)
    (maxiters : ℤ) (amp lscale rate : ℚ) (hm : 0 < maxiters) :
    ∃ j, IsFirstMinIdx (optMaeList lib o ndims latTrain latVal ytrain yval maxiters.toNat) j
      ∧ (activeFitCore lib o ndims latTrain latVal latTest ytrain yval ytest
            maxiters amp lscale rate).bestAmp
          = (optAmpList o maxiters.toNat).getD j 0
      ∧ (activeFitCore lib o ndims latTrain latVal latTest ytrain yval ytest
            maxiters amp lscale rate).bestLength
          = (optLenList o maxiters.toNat).getD j 0
      ∧ (activeFitCore lib o ndims latTrain latVal latTest ytrain yval ytest
            maxiters amp lscale rate).gpMean
          = (lib.post ((optAmpList o maxiters.toNat).getD j 0)
              ((optLenList o maxiters.toNat).getD j 0) ndims latTest latTrain ytrain).mean
      ∧ (activeFitCore lib o ndims latTrain latVal latTest ytrain yval ytest
            maxiters amp lscale rate).gpStddev
          = (lib.post ((optAmpList o maxiters.toNat).getD j 0)
              ((optLenList o maxiters.toNat).getD j 0) ndims latTest latTrain ytrain).stddev
      ∧ (activeFitCore lib o ndims latTrain latVal latTest ytrain yval ytest
            maxiters amp lscale rate).gpVariance
          = (lib.post ((optAmpList o maxiters.toNat).getD j 0)
              ((optLenList o maxiters.toNat).getD j 0) ndims latTest latTrain ytrain).variance
      ∧ (kFoldCore lib o ndims latTrain latVal latTest ytrain yval ytest
            maxiters amp lscale rate).amp
          = (optAmpList o maxiters.toNat).getD j 0
      ∧ (kFoldCore lib o ndims latTrain latVal latTest ytrain yval ytest
            maxiters amp lscale rate).lengthScale
          = (optLenList o maxiters.toNat).getD j 0
      ∧ (ttsFitCore lib o ndims latTrain latTest ytrain ytest
            maxiters amp lscale rate).gpMean
          = (lib.post ((optAmpList o maxiters.toNat).getD (maxiters.toNat - 1) 0)
              ((optLenList o maxiters.toNat).getD (maxiters.toNat - 1) 0)
              ndims latTest latTrain ytrain).mean
      ∧ (ttsFitCore lib o ndims latTrain latTest ytrain ytest
            maxiters amp lscale rate).gpStddev
          = (lib.post ((optAmpList o maxiters.toNat).getD (maxiters.toNat - 1) 0)
              ((optLenList o maxiters.toNat).getD (maxiters.toNat - 1) 0)
              ndims latTest latTrain ytrain).stddev := by
  have hneg : ¬ maxiters ≤ 0 := not_le.mpr hm
  have hn : 0 < maxiters.toNat := by omega
  have hnil : optMaeList lib o ndims latTrain latVal ytrain yval maxiters.toNat ≠ [] := by
    have hlen : (optMaeList lib o ndims latTrain latVal ytrain yval maxiters.toNat).length
        = maxiters.toNat := by
      simp [optMaeList]
    intro hcon
    rw [hcon] at hlen
    simp at hlen
    omega
  refine ⟨argminQ (optMaeList lib o ndims latTrain latVal ytrain yval maxiters.toNat),
    argminQ_isFirstMinIdx _ hnil, ?_, ?_, ?_, ?_, ?_, ?_, ?_, ?_, ?_⟩ <;>
    simp [activeFitCore, kFoldCore, ttsFitCore, hneg]

/-- Witness for C1 (amended) at a concrete two-iteration run. -/
theorem c1_best_iterate_witness :
    (0 : ℤ) < 2
    ∧ ∃ j, IsFirstMinIdx (optMaeList demoLib demoOracle 2 () () [0] [0] (2 : ℤ).toNat) j
      ∧ (activeFitCore demoLib demoOracle 2 () () () [0] [0] [0] 2 1 1 (1/100)).bestAmp
          = (optAmpList demoOracle (2 : ℤ).toNat).getD j 0
      ∧ (activeFitCore demoLib demoOracle 2 () () () [0] [0] [0] 2 1 1 (1/100)).bestLength
          = (optLenList demoOracle (2 : ℤ).toNat).getD j 0
      ∧ (activeFitCore demoLib demoOracle 2 () () () [0] [0] [0] 2 1 1 (1/100)).gpMean
          = (demoLib.post ((optAmpList demoOracle (2 : ℤ).toNat).getD j 0)
              ((optLenList demoOracle (2 : ℤ).toNat).getD j 0) 2 () () [0]).mean
      ∧ (activeFitCore demoLib demoOracle 2 () () () [0] [0] [0] 2 1 1 (1/100)).gpStddev
          = (demoLib.post ((optAmpList demoOracle (2 : ℤ).toNat).getD j 0)
              ((optLenList demoOracle (2 : ℤ).toNat).getD j 0) 2 () () [0]).stddev
      ∧ (activeFitCore demoLib demoOracle 2 () () () [0] [0] [0] 2 1 1 (1/100)).gpVariance
          = (demoLib.post ((optAmpList demoOracle (2 : ℤ).toNat).getD j 0)
              ((optLenList demoOracle (2 : ℤ).toNat).getD j 0) 2 () () [0]).variance
      ∧ (kFoldCore demoLib demoOracle 2 () () () [0] [0] [0] 2 1 1 (1/100)).amp
          = (optAmpList demoOracle (2 : ℤ).toNat).getD j 0
      ∧ (kFoldCore demoLib demoOracle 2 () () () [0] [0] [0] 2 1 1 (1/100)).lengthScale
          = (optLenList demoOracle (2 : ℤ).toNat).getD j 0
      ∧ (ttsFitCore demoLib demoOracle 2 () () [0] [0] 2 1 1 (1/100)).gpMean
          = (demoLib.post ((optAmpList demoOracle (2 : ℤ).toNat).getD ((2 : ℤ).toNat - 1) 0)
              ((optLenList demoOracle (2 : ℤ).toNat).getD ((2 : ℤ).toNat - 1) 0)
              2 () () [0]).mean
      ∧ (ttsFitCore demoLib demoOracle 2 () () [0] [0] 2 1 1 (1/100)).gpStddev
          = (demoLib.post ((optAmpList demoOracle (2 : ℤ).toNat).getD ((2 : ℤ).toNat - 1) 0)
              ((optLenList demoOracle (2 : ℤ).toNat).getD ((2 : ℤ).toNat - 1) 0)
              2 () () [0]).stddev :=
  ⟨by decide,
    c1_best_iterate demoLib demoOracle 2 () () () [0] [0] [0] 2 1 1 (1/100) (by decide)⟩

/-- C5 counterexample: with `quota = 2`, `max_cycles = 1`, `stop = 1/10` and a
test partition of 25 points, `quota * max_cycles = 2` is NOT `>=`
`stop * len(test) = 5/2`, so by the claim the configuration should pass, yet
the code's `assert (query * max_query) < int(stop * len(ytest))` compares
against the truncated bound `int(5/2) = 2` and rejects it. -/
theorem c5_counterexample :
    alPrecheckOk 2 1 (1/10) 25 = false
    ∧ ¬ ((1/10 : ℚ) * 25 ≤ ((2 * 1 : ℕ) : ℚ)) := by
  constructor
  · norm_num [alPrecheckOk, pyInt]
  · norm_num

/-- C5 (amended): the active-learning configuration is rejected before the
loop starts exactly when `quota * max_cycles >= int(stop_fraction * len(test))`
(the bound truncated to an integer, not the exact product); and when the
check passes (with `stop < 1`, which a prior assert guarantees), the test
partition stays nonempty through every one of the `max_cycles` planned
migrations of `quota` points each. -/
theorem c5_precheck {query maxQuery : ℕ} {stop : ℚ} {ntest : ℕ} :
    (alPrecheckOk query maxQuery stop ntest = false
        ↔ pyInt (stop * ntest) ≤ ((query * maxQuery : ℕ) : ℤ))
    ∧ (alPrecheckOk query maxQuery stop ntest = true → stop < 1 →
        ∀ i, i ≤ maxQuery → 0 < specTestSizeAfter ntest query i) := by
  constructor
  · simp [alPrecheckOk, not_lt]
  · intro hpass hstop i hi
    simp only [alPrecheckOk, decide_eq_true_eq] at hpass
    unfold specTestSizeAfter
    have h0 : (0 : ℚ) ≤ stop * ntest := by
      by_contra hneg
      push_neg at hneg
      have hceil : pyInt (stop * ntest) ≤ 0 := by
        unfold pyInt
        rw [if_neg (not_le.mpr hneg)]
        exact Int.ceil_le.mpr (by push_cast; linarith)
      omega
    have hfloor : pyInt (stop * ntest) = ⌊stop * ntest⌋ := by
      unfold pyInt
      rw [if_pos h0]
    have h1 : ((query * maxQuery : ℕ) : ℤ) < ⌊stop * ntest⌋ := by
      rw [← hfloor]
      exact hpass
    have h2 : ((query * maxQuery : ℕ) : ℚ) < stop * ntest := by
      have hstep : ((query * maxQuery : ℕ) : ℤ) + 1 ≤ ⌊stop * ntest⌋ :=
        Int.add_one_le_iff.mpr h1
      have hle : ((((query * maxQuery : ℕ) : ℤ) + 1 : ℤ) : ℚ) ≤ stop * ntest :=
        Int.le_floor.mp hstep
      push_cast at hle ⊢
      linarith
    have h3 : stop * ntest ≤ (ntest : ℚ) :=
      mul_le_of_le_one_left (by positivity) (le_of_lt hstop)
    have h4 : query * maxQuery < ntest := by
      exact_mod_cast lt_of_lt_of_le h2 h3
    have h5 : query * i ≤ query * maxQuery := Nat.mul_le_mul_left _ hi
    omega

/-- Witness for C5 (amended) at a passing configuration: one migration of one
point out of ten test points with `stop = 1/2`. -/
theorem c5_precheck_witness :
    ((alPrecheckOk 1 1 (1/2) 10 = false
        ↔ pyInt ((1/2 : ℚ) * 10) ≤ ((1 * 1 : ℕ) : ℤ))
      ∧ (alPrecheckOk 1 1 (1/2) 10 = true → (1/2 : ℚ) < 1 →
          ∀ i, i ≤ 1 → 0 < specTestSizeAfter 10 1 i)) :=
  c5_precheck

end GpNet
